import Mathlib

set_option maxRecDepth 10000

/-!
Shallow embedding of the `wino_identity` Solana/Anchor program
(src/programs/wino_identity/src/lib.rs).

The program stores one `BusinessIdentity` record per owning wallet.  The
record lives at a program-derived address (PDA) whose seeds are the fixed
namespace tag `IDENTITY_SEED` together with the owner's public key, so the
on-chain key-value store restricted to this program is, observationally, a
map from the owner's public key to an optional record.  We model public
keys as natural numbers and the store as a function
`Nat → Option BusinessIdentity`.

Byte strings (`String` in Rust, where `.len()` is the byte length) are
modelled as `List Nat`; only their lengths matter to the program logic.
`i64` timestamps are modelled as `Int` (no arithmetic is performed on
them, only assignment, so overflow is not in play).

Anchor evaluates account constraints before the instruction handler runs:
* `create_identity`: the `init` constraint allocates the PDA and fails if
  an account already exists there; then the handler checks the name and
  logo lengths in that order.
* `update_identity`: the `seeds`/`bump` constraints force the passed
  account to be the PDA derived from the calling signer's key (so the
  looked-up slot is the caller's own), the `constraint
  identity.authority == authority.key()` check raises `Unauthorized`, and
  then the handler checks the two lengths in the same order as create.
Allocation collisions and missing accounts surface as environment-level
errors; we give them explicit constructors (`accountAlreadyInUse`,
`accountNotFound`) alongside the three domain errors of `IdentityError`.
-/

/-- Maximum byte length for `name` (`MAX_NAME_LENGTH` in the source). -/
def MAX_NAME_LENGTH : Nat := 64

/-- Maximum byte length for `logo_uri` (`MAX_LOGO_URI_LENGTH` in the source). -/
def MAX_LOGO_URI_LENGTH : Nat := 200

/-- The `BusinessIdentity` account data, field for field as in the source. -/
structure BusinessIdentity where
  /-- The wallet that owns this identity. -/
  authority : Nat
  /-- Type of identity (1 = business); a `u8` in the source. -/
  identity_type : Nat
  /-- Business name bytes (max 64). -/
  name : List Nat
  /-- Logo URI bytes (max 200). -/
  logo_uri : List Nat
  /-- Unix timestamp when created (`i64`). -/
  created_at : Int
  /-- Unix timestamp when last updated (`i64`). -/
  updated_at : Int
  /-- PDA bump seed (`u8`). -/
  bump : Nat
  deriving DecidableEq, Repr

/-- Fixed allocation size of the account:
8 (discriminator) + 32 (authority) + 1 (identity_type) +
(4 + 64) (name) + (4 + 200) (logo_uri) + 8 + 8 (timestamps) + 1 (bump). -/
def BusinessIdentity.SIZE : Nat :=
  8 + 32 + 1 + (4 + MAX_NAME_LENGTH) + (4 + MAX_LOGO_URI_LENGTH) + 8 + 8 + 1

/-- Errors an instruction can end with: the three domain errors of the
source `IdentityError` enum, plus the two environment-level failures the
account constraints can raise (allocation collision on `init`,
nonexistent account on the `seeds`/`bump` lookup). -/
inductive IdentityError where
  | invalidNameLength
  | invalidLogoUriLength
  | unauthorized
  | accountAlreadyInUse
  | accountNotFound
  deriving DecidableEq, Repr

/-- The program's observable state: one optional record per owner key
(the PDA for owner `k` has seeds `[IDENTITY_SEED, k]`). -/
def Store : Type := Nat → Option BusinessIdentity

/-- The empty store (no identity account exists yet). -/
def Store.empty : Store := fun _ => none

/-- The `create_identity` instruction for signer `authority` at clock time
`now`, with `bump` the bump found by the PDA derivation.  The `init`
constraint fails when the PDA is already occupied; then the handler
requires `name.len() > 0 && name.len() <= MAX_NAME_LENGTH` and
`logo_uri.len() <= MAX_LOGO_URI_LENGTH`, and on success populates every
field of the fresh record. -/
def create_identity (s : Store) (authority : Nat) (bump : Nat) (now : Int)
    (name logo_uri : List Nat) : Except IdentityError Store :=
  match s authority with
  | some _ => Except.error IdentityError.accountAlreadyInUse
  | none =>
    if name.length > 0 ∧ name.length ≤ MAX_NAME_LENGTH then
      if logo_uri.length ≤ MAX_LOGO_URI_LENGTH then
        Except.ok (fun k =>
          if k = authority then
            some { authority := authority
                   identity_type := 1
                   name := name
                   logo_uri := logo_uri
                   created_at := now
                   updated_at := now
                   bump := bump }
          else s k)
      else Except.error IdentityError.invalidLogoUriLength
    else Except.error IdentityError.invalidNameLength

/-- The `update_identity` instruction for signer `caller` at clock time
`now`.  The `seeds`/`bump` constraints resolve the account at the
caller's own PDA (failing if none exists), the `authority` constraint
raises `Unauthorized` on a mismatch, then the handler checks the two
lengths exactly as in create and overwrites `name`, `logo_uri` and
`updated_at` only. -/
def update_identity (s : Store) (caller : Nat) (now : Int)
    (name logo_uri : List Nat) : Except IdentityError Store :=
  match s caller with
  | none => Except.error IdentityError.accountNotFound
  | some r =>
    if r.authority = caller then
      if name.length > 0 ∧ name.length ≤ MAX_NAME_LENGTH then
        if logo_uri.length ≤ MAX_LOGO_URI_LENGTH then
          Except.ok (fun k =>
            if k = caller then
              some { r with name := name, logo_uri := logo_uri, updated_at := now }
            else s k)
        else Except.error IdentityError.invalidLogoUriLength
      else Except.error IdentityError.invalidNameLength
    else Except.error IdentityError.unauthorized

/-- The store after a `create_identity` call: the new store on success,
the old store untouched on any error (the hosting runtime commits an
instruction's writes only when it succeeds). -/
def stepCreate (s : Store) (authority : Nat) (bump : Nat) (now : Int)
    (name logo_uri : List Nat) : Store :=
  match create_identity s authority bump now name logo_uri with
  | Except.ok s2 => s2
  | Except.error _ => s

/-- The store after an `update_identity` call: the new store on success,
the old store untouched on any error. -/
def stepUpdate (s : Store) (caller : Nat) (now : Int)
    (name logo_uri : List Nat) : Store :=
  match update_identity s caller now name logo_uri with
  | Except.ok s2 => s2
  | Except.error _ => s

/-- Stores reachable from the empty store by successful instructions,
indexed by the clock value of the last step; the cluster clock is
monotone, so each step's `now` is at least the previous one. -/
inductive Reachable : Int → Store → Prop where
  | init (t : Int) : Reachable t Store.empty
  | create {t : Int} {s : Store} (a b : Nat) (t2 : Int) (n l : List Nat)
      {s2 : Store} :
      Reachable t s → t ≤ t2 →
      create_identity s a b t2 n l = Except.ok s2 → Reachable t2 s2
  | update {t : Int} {s : Store} (c : Nat) (t2 : Int) (n l : List Nat)
      {s2 : Store} :
      Reachable t s → t ≤ t2 →
      update_identity s c t2 n l = Except.ok s2 → Reachable t2 s2

/-- C1: for every name of byte length in [1, 64] and logo_uri of byte
length in [0, 200], a successful `create_identity` for a signing
principal produces a record whose `name` and `logo_uri` equal the inputs,
whose `authority` is the caller's key, whose `identity_type` is 1, whose
`bump` is the derivation bump, and whose `created_at` and `updated_at`
both equal the current clock time. -/
theorem create_identity_populates_record (s : Store) (a b : Nat) (now : Int)
    (name logo_uri : List Nat)
    (hfresh : s a = none)
    (hn : 1 ≤ name.length ∧ name.length ≤ MAX_NAME_LENGTH)
    (hl : logo_uri.length ≤ MAX_LOGO_URI_LENGTH) :
    ∃ s2, create_identity s a b now name logo_uri = Except.ok s2 ∧
      s2 a = some { authority := a, identity_type := 1, name := name,
                    logo_uri := logo_uri, created_at := now,
                    updated_at := now, bump := b } := by
  unfold create_identity
  rw [hfresh, if_pos ⟨hn.1, hn.2⟩, if_pos hl]
  exact ⟨_, rfl, by simp⟩

/-- Witness for C1 at a concrete input. -/
theorem create_identity_populates_record_witness :
    ∃ s2, create_identity Store.empty 1 255 100 [65] [66] = Except.ok s2 ∧
      s2 1 = some { authority := 1, identity_type := 1, name := [65],
                    logo_uri := [66], created_at := 100,
                    updated_at := 100, bump := 255 } :=
  create_identity_populates_record Store.empty 1 255 100 [65] [66]
    rfl ⟨by decide, by decide⟩ (by decide)

/-- C2: a successful `update_identity` by the owning principal overwrites
exactly `name`, `logo_uri` and `updated_at` (set to the current clock
time) and leaves `authority`, `identity_type`, `created_at` and `bump`
unchanged; every other slot of the store is also untouched. -/
theorem update_identity_frame (s : Store) (c : Nat) (now : Int)
    (name logo_uri : List Nat) (r : BusinessIdentity)
    (hex : s c = some r) (hauth : r.authority = c)
    (hn : 1 ≤ name.length ∧ name.length ≤ MAX_NAME_LENGTH)
    (hl : logo_uri.length ≤ MAX_LOGO_URI_LENGTH) :
    ∃ s2, update_identity s c now name logo_uri = Except.ok s2 ∧
      s2 c = some { authority := r.authority,
                    identity_type := r.identity_type,
                    name := name, logo_uri := logo_uri,
                    created_at := r.created_at, updated_at := now,
                    bump := r.bump } ∧
      ∀ k, k ≠ c → s2 k = s k := by
  unfold update_identity
  rw [hex]
  dsimp only
  rw [if_pos hauth, if_pos ⟨hn.1, hn.2⟩, if_pos hl]
  refine ⟨_, rfl, by simp, ?_⟩
  intro k hk
  simp [hk]

/-- Witness for C2 at a concrete input. -/
theorem update_identity_frame_witness :
    ∃ s2, update_identity
        (fun k => if k = 2 then
          some { authority := 2, identity_type := 1, name := [65],
                 logo_uri := [], created_at := 5, updated_at := 5,
                 bump := 254 } else none)
        2 9 [66, 67] [68] = Except.ok s2 ∧
      s2 2 = some { authority := 2, identity_type := 1, name := [66, 67],
                    logo_uri := [68], created_at := 5, updated_at := 9,
                    bump := 254 } ∧
      ∀ k, k ≠ 2 →
        s2 k = (fun k => if k = 2 then
          some { authority := 2, identity_type := 1, name := [65],
                 logo_uri := [], created_at := 5, updated_at := 5,
                 bump := 254 } else none) k := by
  exact update_identity_frame
    (fun k => if k = 2 then
      some { authority := 2, identity_type := 1, name := [65],
             logo_uri := [], created_at := 5, updated_at := 5,
             bump := 254 } else none)
    2 9 [66, 67] [68]
    { authority := 2, identity_type := 1, name := [65], logo_uri := [],
      created_at := 5, updated_at := 5, bump := 254 }
    rfl rfl ⟨by decide, by decide⟩ (by decide)

/-- C3: when the record stored at the caller's derived address has an
`authority` different from the caller's key, `update_identity` fails with
`Unauthorized` and the store (hence the record) is left unchanged. -/
theorem update_identity_unauthorized (s : Store) (c : Nat) (now : Int)
    (name logo_uri : List Nat) (r : BusinessIdentity)
    (hex : s c = some r) (hauth : r.authority ≠ c) :
    update_identity s c now name logo_uri
      = Except.error IdentityError.unauthorized ∧
    stepUpdate s c now name logo_uri = s := by
  have h : update_identity s c now name logo_uri
      = Except.error IdentityError.unauthorized := by
    unfold update_identity
    rw [hex]
    dsimp only
    rw [if_neg hauth]
  exact ⟨h, by unfold stepUpdate; rw [h]⟩

/-- Witness for C3 at a concrete input. -/
theorem update_identity_unauthorized_witness :
    update_identity
        (fun k => if k = 3 then
          some { authority := 4, identity_type := 1, name := [65],
                 logo_uri := [], created_at := 0, updated_at := 0,
                 bump := 7 } else none)
        3 9 [65] [] = Except.error IdentityError.unauthorized ∧
    stepUpdate
        (fun k => if k = 3 then
          some { authority := 4, identity_type := 1, name := [65],
                 logo_uri := [], created_at := 0, updated_at := 0,
                 bump := 7 } else none)
        3 9 [65] []
      = (fun k => if k = 3 then
          some { authority := 4, identity_type := 1, name := [65],
                 logo_uri := [], created_at := 0, updated_at := 0,
                 bump := 7 } else none) := by
  exact update_identity_unauthorized
    (fun k => if k = 3 then
      some { authority := 4, identity_type := 1, name := [65],
             logo_uri := [], created_at := 0, updated_at := 0,
             bump := 7 } else none)
    3 9 [65] []
    { authority := 4, identity_type := 1, name := [65], logo_uri := [],
      created_at := 0, updated_at := 0, bump := 7 }
    rfl (by decide)

/-- Inversion for a successful create: the slot was free, both length
checks passed, and the result store is the input store with the fresh
record at the caller's slot. -/
theorem create_ok_inv {s : Store} {a b : Nat} {now : Int}
    {name logo_uri : List Nat} {s2 : Store}
    (h : create_identity s a b now name logo_uri = Except.ok s2) :
    s a = none ∧ name.length > 0 ∧ name.length ≤ MAX_NAME_LENGTH ∧
    logo_uri.length ≤ MAX_LOGO_URI_LENGTH ∧
    s2 = fun k => if k = a then
        some { authority := a, identity_type := 1, name := name,
               logo_uri := logo_uri, created_at := now, updated_at := now,
               bump := b } else s k := by
  unfold create_identity at h
  cases hsa : s a with
  | some r =>
    rw [hsa] at h
    exact Except.noConfusion h
  | none =>
    rw [hsa] at h
    dsimp only at h
    by_cases hn : name.length > 0 ∧ name.length ≤ MAX_NAME_LENGTH
    · rw [if_pos hn] at h
      by_cases hl : logo_uri.length ≤ MAX_LOGO_URI_LENGTH
      · rw [if_pos hl] at h
        exact ⟨rfl, hn.1, hn.2, hl, (Except.ok.inj h).symm⟩
      · rw [if_neg hl] at h
        exact Except.noConfusion h
    · rw [if_neg hn] at h
      exact Except.noConfusion h

/-- Inversion for a successful update: some record with matching
authority was at the caller's slot, both length checks passed, and the
result store rewrites only that slot's name, logo_uri and updated_at. -/
theorem update_ok_inv {s : Store} {c : Nat} {now : Int}
    {name logo_uri : List Nat} {s2 : Store}
    (h : update_identity s c now name logo_uri = Except.ok s2) :
    ∃ r, s c = some r ∧ r.authority = c ∧
      name.length > 0 ∧ name.length ≤ MAX_NAME_LENGTH ∧
      logo_uri.length ≤ MAX_LOGO_URI_LENGTH ∧
      s2 = fun k => if k = c then
          some { r with name := name, logo_uri := logo_uri,
                        updated_at := now }
        else s k := by
  unfold update_identity at h
  cases hsc : s c with
  | none =>
    rw [hsc] at h
    exact Except.noConfusion h
  | some r =>
    rw [hsc] at h
    dsimp only at h
    by_cases ha : r.authority = c
    · rw [if_pos ha] at h
      by_cases hn : name.length > 0 ∧ name.length ≤ MAX_NAME_LENGTH
      · rw [if_pos hn] at h
        by_cases hl : logo_uri.length ≤ MAX_LOGO_URI_LENGTH
        · rw [if_pos hl] at h
          exact ⟨r, rfl, ha, hn.1, hn.2, hl, (Except.ok.inj h).symm⟩
        · rw [if_neg hl] at h
          exact Except.noConfusion h
      · rw [if_neg hn] at h
        exact Except.noConfusion h
    · rw [if_neg ha] at h
      exact Except.noConfusion h

/-- C4: for every name of byte length 0 or above 64, `create_identity`
on a free slot fails with `InvalidNameLength` and the store is left
unchanged (no record is produced). -/
theorem create_identity_invalid_name (s : Store) (a b : Nat) (now : Int)
    (name logo_uri : List Nat)
    (hfresh : s a = none)
    (hn : name.length = 0 ∨ name.length > MAX_NAME_LENGTH) :
    create_identity s a b now name logo_uri
      = Except.error IdentityError.invalidNameLength ∧
    stepCreate s a b now name logo_uri = s := by
  have hcond : ¬ (name.length > 0 ∧ name.length ≤ MAX_NAME_LENGTH) := by
    rcases hn with h | h <;> omega
  have he : create_identity s a b now name logo_uri
      = Except.error IdentityError.invalidNameLength := by
    unfold create_identity
    rw [hfresh]
    dsimp only
    rw [if_neg hcond]
  exact ⟨he, by unfold stepCreate; rw [he]⟩

/-- Witness for C4 at a concrete input. -/
theorem create_identity_invalid_name_witness :
    create_identity Store.empty 1 0 0 [] [65]
      = Except.error IdentityError.invalidNameLength ∧
    stepCreate Store.empty 1 0 0 [] [65] = Store.empty :=
  create_identity_invalid_name Store.empty 1 0 0 [] [65] rfl
    (Or.inl (by decide))

/-- Counterexample to C5 as stated: with an empty name (invalid) and a
201-byte logo_uri, `create_identity` reports `InvalidNameLength`, not
`InvalidLogoUriLength`, because the name check runs first. -/
theorem create_identity_long_logo_any_name_cex :
    create_identity Store.empty 0 0 0 [] (List.replicate 201 0)
      = Except.error IdentityError.invalidNameLength ∧
    create_identity Store.empty 0 0 0 [] (List.replicate 201 0)
      ≠ Except.error IdentityError.invalidLogoUriLength := by
  have h1 : create_identity Store.empty 0 0 0 [] (List.replicate 201 0)
      = Except.error IdentityError.invalidNameLength := rfl
  refine ⟨h1, ?_⟩
  rw [h1]
  simp

/-- C5 amended: for every logo_uri of byte length above 200 and every
name within its bounds (1 to 64 bytes), `create_identity` (on a free
slot) and `update_identity` (on an existing record owned by the caller)
each fail with `InvalidLogoUriLength`; update applies the same length
bounds as create. -/
theorem invalid_logo_uri_rejected (s : Store) (a c b : Nat) (now : Int)
    (name logo_uri : List Nat) (r : BusinessIdentity)
    (hn : 1 ≤ name.length ∧ name.length ≤ MAX_NAME_LENGTH)
    (hl : logo_uri.length > MAX_LOGO_URI_LENGTH) :
    (s a = none →
      create_identity s a b now name logo_uri
        = Except.error IdentityError.invalidLogoUriLength) ∧
    (s c = some r → r.authority = c →
      update_identity s c now name logo_uri
        = Except.error IdentityError.invalidLogoUriLength) := by
  have hlneg : ¬ logo_uri.length ≤ MAX_LOGO_URI_LENGTH := by omega
  constructor
  · intro hfresh
    unfold create_identity
    rw [hfresh]
    dsimp only
    rw [if_pos ⟨hn.1, hn.2⟩, if_neg hlneg]
  · intro hex hauth
    unfold update_identity
    rw [hex]
    dsimp only
    rw [if_pos hauth, if_pos ⟨hn.1, hn.2⟩, if_neg hlneg]

/-- Witness for the amended C5 at a concrete input. -/
theorem invalid_logo_uri_rejected_witness :
    create_identity
        (fun k => if k = 2 then
          some { authority := 2, identity_type := 1, name := [65],
                 logo_uri := [], created_at := 0, updated_at := 0,
                 bump := 9 } else none)
        1 0 0 [65] (List.replicate 201 0)
      = Except.error IdentityError.invalidLogoUriLength ∧
    update_identity
        (fun k => if k = 2 then
          some { authority := 2, identity_type := 1, name := [65],
                 logo_uri := [], created_at := 0, updated_at := 0,
                 bump := 9 } else none)
        2 0 [65] (List.replicate 201 0)
      = Except.error IdentityError.invalidLogoUriLength := by
  have h := invalid_logo_uri_rejected
    (fun k => if k = 2 then
      some { authority := 2, identity_type := 1, name := [65],
             logo_uri := [], created_at := 0, updated_at := 0,
             bump := 9 } else none)
    1 2 0 0 [65] (List.replicate 201 0)
    { authority := 2, identity_type := 1, name := [65], logo_uri := [],
      created_at := 0, updated_at := 0, bump := 9 }
    ⟨by decide, by decide⟩ (by decide)
  exact ⟨h.1 rfl, h.2 rfl rfl⟩

/-- C6: once `create_identity` has succeeded for a principal, any second
`create_identity` for the same principal fails with the allocation
collision error and changes nothing, and the first call's record is the
one stored; hence at most one record ever exists per owning principal. -/
theorem create_identity_unique_per_principal (s : Store) (a b : Nat)
    (now : Int) (name logo_uri : List Nat) (s2 : Store)
    (h : create_identity s a b now name logo_uri = Except.ok s2) :
    (∀ b2 now2 name2 logo2,
      create_identity s2 a b2 now2 name2 logo2
        = Except.error IdentityError.accountAlreadyInUse ∧
      stepCreate s2 a b2 now2 name2 logo2 = s2) ∧
    s2 a = some { authority := a, identity_type := 1, name := name,
                  logo_uri := logo_uri, created_at := now,
                  updated_at := now, bump := b } := by
  obtain ⟨hsa, hn1, hn2, hl, hs2⟩ := create_ok_inv h
  have hrec : s2 a = some { authority := a, identity_type := 1,
                            name := name, logo_uri := logo_uri,
                            created_at := now, updated_at := now,
                            bump := b } := by
    rw [hs2]; simp
  refine ⟨?_, hrec⟩
  intro b2 now2 name2 logo2
  have he : create_identity s2 a b2 now2 name2 logo2
      = Except.error IdentityError.accountAlreadyInUse := by
    unfold create_identity
    rw [hrec]
  exact ⟨he, by unfold stepCreate; rw [he]⟩

/-- Witness for C6 at a concrete input. -/
theorem create_identity_unique_per_principal_witness :
    create_identity
        (fun k => if k = 1 then
          some { authority := 1, identity_type := 1, name := [65],
                 logo_uri := [66], created_at := 5, updated_at := 5,
                 bump := 7 } else Store.empty k)
        1 9 10 [66] []
      = Except.error IdentityError.accountAlreadyInUse ∧
    (fun k => if k = 1 then
      some { authority := 1, identity_type := 1, name := [65],
             logo_uri := [66], created_at := 5, updated_at := 5,
             bump := 7 } else Store.empty k) 1
      = some { authority := 1, identity_type := 1, name := [65],
               logo_uri := [66], created_at := 5, updated_at := 5,
               bump := 7 } := by
  have h := create_identity_unique_per_principal Store.empty 1 7 5 [65] [66]
    (fun k => if k = 1 then
      some { authority := 1, identity_type := 1, name := [65],
             logo_uri := [66], created_at := 5, updated_at := 5,
             bump := 7 } else Store.empty k)
    rfl
  exact ⟨(h.1 9 10 [66] []).1, h.2⟩

/-- Clock-relative invariant of reachable stores: every stored record has
`created_at <= updated_at`, and `updated_at` is at most the clock value
of the last step. -/
theorem reachable_clock_invariant {t : Int} {s : Store}
    (h : Reachable t s) :
    ∀ k r, s k = some r → r.created_at ≤ r.updated_at ∧ r.updated_at ≤ t := by
  induction h with
  | init t =>
    intro k r hk
    exact absurd hk (by simp [Store.empty])
  | create a b t2 n l hre hle hok ih =>
    intro k r hk
    obtain ⟨hsa, _, _, _, hs2⟩ := create_ok_inv hok
    rw [hs2] at hk
    dsimp only at hk
    by_cases hka : k = a
    · rw [if_pos hka] at hk
      obtain rfl := Option.some.inj hk
      exact ⟨le_refl t2, le_refl t2⟩
    · rw [if_neg hka] at hk
      obtain ⟨h1, h2⟩ := ih k r hk
      exact ⟨h1, le_trans h2 hle⟩
  | update c t2 n l hre hle hok ih =>
    intro k r hk
    obtain ⟨r0, hsc, hauth, _, _, _, hs2⟩ := update_ok_inv hok
    rw [hs2] at hk
    dsimp only at hk
    by_cases hkc : k = c
    · rw [if_pos hkc] at hk
      obtain rfl := Option.some.inj hk
      obtain ⟨ih1, ih2⟩ := ih c r0 hsc
      exact ⟨le_trans ih1 (le_trans ih2 hle), le_refl t2⟩
    · rw [if_neg hkc] at hk
      obtain ⟨h1, h2⟩ := ih k r hk
      exact ⟨h1, le_trans h2 hle⟩

/-- C7: in every state reachable by any sequence of `create_identity`
and `update_identity` operations (with a monotone clock), every existing
record satisfies `updated_at >= created_at`. -/
theorem reachable_updated_at_ge_created_at (t : Int) (s : Store)
    (h : Reachable t s) (k : Nat) (r : BusinessIdentity)
    (hk : s k = some r) :
    r.created_at ≤ r.updated_at :=
  (reachable_clock_invariant h k r hk).1

/-- Witness for C7 at a concrete reachable state. -/
theorem reachable_updated_at_ge_created_at_witness :
    ({ authority := 1, identity_type := 1, name := [65], logo_uri := [],
       created_at := 5, updated_at := 5,
       bump := 3 } : BusinessIdentity).created_at
      ≤ ({ authority := 1, identity_type := 1, name := [65],
           logo_uri := [], created_at := 5, updated_at := 5,
           bump := 3 } : BusinessIdentity).updated_at := by
  exact reachable_updated_at_ge_created_at 5
    (fun k => if k = 1 then
      some { authority := 1, identity_type := 1, name := [65],
             logo_uri := [], created_at := 5, updated_at := 5,
             bump := 3 } else Store.empty k)
    (Reachable.create 1 3 5 [65] [] (Reachable.init 0) (by decide) rfl)
    1
    { authority := 1, identity_type := 1, name := [65], logo_uri := [],
      created_at := 5, updated_at := 5, bump := 3 }
    rfl

/-- C8: whenever `create_identity` or `update_identity` ends in any
error, the resulting store is exactly the store before the call — no
partial state change is ever committed. -/
theorem error_leaves_store_unchanged (s : Store) (a c b : Nat) (now : Int)
    (name logo_uri : List Nat) :
    (∀ e, create_identity s a b now name logo_uri = Except.error e →
      stepCreate s a b now name logo_uri = s) ∧
    (∀ e, update_identity s c now name logo_uri = Except.error e →
      stepUpdate s c now name logo_uri = s) := by
  constructor
  · intro e he
    unfold stepCreate
    rw [he]
  · intro e he
    unfold stepUpdate
    rw [he]

/-- Witness for C8 at concrete failing inputs. -/
theorem error_leaves_store_unchanged_witness :
    stepCreate Store.empty 1 0 0 [] [] = Store.empty ∧
    stepUpdate Store.empty 1 0 [65] [] = Store.empty :=
  ⟨(error_leaves_store_unchanged Store.empty 1 1 0 0 [] []).1
      IdentityError.invalidNameLength rfl,
   (error_leaves_store_unchanged Store.empty 1 1 0 0 [] []).2
      IdentityError.accountNotFound rfl⟩

/-- Counterexample to C9 as stated: the documented layout sums to 330
bytes (8 + 32 + 1 + 68 + 204 + 8 + 8 + 1), not 326, so the fixed
allocation size is not 326. -/
theorem business_identity_size_not_326 : BusinessIdentity.SIZE ≠ 326 := by
  decide

/-- C9 amended: the fixed allocation size `BusinessIdentity.SIZE` equals
the sum of the documented layout — 8 (discriminator) + 32 (authority) +
1 (identity_type) + (4 + 64) (name) + (4 + 200) (logo_uri) + 8 + 8
(timestamps) + 1 (bump) — which is 330 bytes; it is a constant,
independent of the actual string contents stored. -/
theorem business_identity_size_eq :
    BusinessIdentity.SIZE
      = 8 + 32 + 1 + (4 + 64) + (4 + 200) + 8 + 8 + 1 ∧
    BusinessIdentity.SIZE = 330 := by
  constructor <;> decide

/-- C10: when both bounds are violated (name empty or over 64 bytes and
logo_uri over 200 bytes), `create_identity` (on a free slot) and
`update_identity` (on an existing record owned by the caller) each report
`InvalidNameLength`, because the name check is performed first. -/
theorem both_bounds_violated_name_error_first (s : Store) (a c b : Nat)
    (now : Int) (name logo_uri : List Nat) (r : BusinessIdentity)
    (hn : name.length = 0 ∨ name.length > MAX_NAME_LENGTH)
    (_hl : logo_uri.length > MAX_LOGO_URI_LENGTH) :
    (s a = none →
      create_identity s a b now name logo_uri
        = Except.error IdentityError.invalidNameLength) ∧
    (s c = some r → r.authority = c →
      update_identity s c now name logo_uri
        = Except.error IdentityError.invalidNameLength) := by
  have hcond : ¬ (name.length > 0 ∧ name.length ≤ MAX_NAME_LENGTH) := by
    rcases hn with h | h <;> omega
  constructor
  · intro hfresh
    unfold create_identity
    rw [hfresh]
    dsimp only
    rw [if_neg hcond]
  · intro hex hauth
    unfold update_identity
    rw [hex]
    dsimp only
    rw [if_pos hauth, if_neg hcond]

/-- Witness for C10 at a concrete input. -/
theorem both_bounds_violated_name_error_first_witness :
    create_identity
        (fun k => if k = 2 then
          some { authority := 2, identity_type := 1, name := [65],
                 logo_uri := [], created_at := 0, updated_at := 0,
                 bump := 4 } else none)
        1 0 0 [] (List.replicate 201 0)
      = Except.error IdentityError.invalidNameLength ∧
    update_identity
        (fun k => if k = 2 then
          some { authority := 2, identity_type := 1, name := [65],
                 logo_uri := [], created_at := 0, updated_at := 0,
                 bump := 4 } else none)
        2 0 [] (List.replicate 201 0)
      = Except.error IdentityError.invalidNameLength := by
  have h := both_bounds_violated_name_error_first
    (fun k => if k = 2 then
      some { authority := 2, identity_type := 1, name := [65],
             logo_uri := [], created_at := 0, updated_at := 0,
             bump := 4 } else none)
    1 2 0 0 [] (List.replicate 201 0)
    { authority := 2, identity_type := 1, name := [65], logo_uri := [],
      created_at := 0, updated_at := 0, bump := 4 }
    (Or.inl (by decide))
    (by rw [List.length_replicate]; decide)
  exact ⟨h.1 rfl, h.2 rfl rfl⟩
